import Mathlib

/-!
Shallow embedding of `src/uv_metadata.c` (double-buffered Raft metadata
persistence): the record codec (`encode`/`decode`), slot naming
(`indexOf`/`filenameOf`), the write path (`uvMetadataStore`), and the
recovery algorithm (`loadFile`, `ensure`, `uvMetadataLoad`), together with
theorems settling the frozen claims about it.

Machine integers are modelled as `Nat`/`Int` with explicit `% 2^w` masks at
the places where the C code truncates.  Fallible filesystem collaborators are
modelled by passing their result codes explicitly; the deterministic in-memory
directory (`Dir`) instantiates them for whole-scenario runs.  A C `assert`
aborting the process is modelled by an `Option` result being `none`.
-/

namespace UvMeta

/-- Modelled from the spec (raft.h is not under src/): the distinct fatal
error kinds `IOError`, `Malformed`, `Corrupt`.  Only distinctness from 0 and
from one another matters to the behaviour of this file. -/
def RAFT_MALFORMED : Int := 6

/-- Modelled from the spec: the `Corrupt` error code (raft.h not in src/). -/
def RAFT_CORRUPT : Int := 12

/-- Modelled from the spec: the `IOError` code (raft.h not in src/). -/
def RAFT_IOERR : Int := 16

/-- Modelled from the spec (uv_error.h not in src/): the distinguished
"short read" result of `readFull`, reported distinctly from a generic
I/O error when the file is shorter than requested. -/
def UV__NODATA : Int := 1001

/-- Modelled from the spec (uv_encoding.h not in src/): the constant format
tag identifying the on-disk layout version of the codec. -/
def UV__DISK_FORMAT : Nat := 1

/-- `struct uvMetadata`.  Modelled from the spec (the struct lives in uv.h,
not under src/): `version`, `term` and `votedFor` are unsigned 64-bit; a
value `< 2^64` in each field represents a C struct state. -/
structure uvMetadata where
  version : Nat
  term : Nat
  voted_for : Nat
  deriving DecidableEq, Repr

/-- The all-zero record produced by `memset(metadata, 0, sizeof *metadata)`. -/
def zeroRecord : uvMetadata := { version := 0, term := 0, voted_for := 0 }

/-- Modelled from the spec (byte.h not in src/): `bytePut64` serializes a
64-bit unsigned integer as 8 bytes in a fixed (little-endian) byte order. -/
def bytePut64 (v : Nat) : List Nat :=
  [v % 256, v / 256 % 256, v / 65536 % 256, v / 16777216 % 256,
   v / 4294967296 % 256, v / 1099511627776 % 256,
   v / 281474976710656 % 256, v / 72057594037927936 % 256]

/-- Modelled from the spec (byte.h not in src/): `byteGet64` reads a 64-bit
unsigned integer from the first 8 bytes of the buffer, in the same fixed
byte order as `bytePut64`.  Entries are masked to byte range, since a C
buffer holds only bytes. -/
def byteGet64 (l : List Nat) : Nat :=
  l.getD 0 0 % 256 + l.getD 1 0 % 256 * 256 + l.getD 2 0 % 256 * 65536 +
  l.getD 3 0 % 256 * 16777216 + l.getD 4 0 % 256 * 4294967296 +
  l.getD 5 0 % 256 * 1099511627776 + l.getD 6 0 % 256 * 281474976710656 +
  l.getD 7 0 % 256 * 72057594037927936

/-- `encode`: the content of a metadata file, 32 bytes
`[formatTag, version, term, votedFor]`, each a 64-bit field. -/
def encode (metadata : uvMetadata) : List Nat :=
  bytePut64 UV__DISK_FORMAT ++
    (bytePut64 metadata.version ++
      (bytePut64 metadata.term ++ bytePut64 metadata.voted_for))

/-- `decode`: reads the format tag and, when it matches, the three record
fields.  The C code reads the 64-bit tag into a C `unsigned` (32 bits on
every platform this code targets), so the comparison sees only the low 32
bits of the first field.  The second argument is the caller's struct (the
out-parameter), returned untouched when decoding fails. -/
def decode (buf : List Nat) (metadata : uvMetadata) : Int × uvMetadata :=
  if byteGet64 buf % 4294967296 ≠ UV__DISK_FORMAT then
    (RAFT_MALFORMED, metadata)
  else
    (0, { version := byteGet64 (buf.drop 8),
          term := byteGet64 (buf.drop 16),
          voted_for := byteGet64 (buf.drop 24) })

/-- `indexOf`: the metadata file index associated with the given version.
The C parameter type is `int`; C `%` truncates toward zero (`Int.tmod`). -/
def indexOf (version : Int) : Int :=
  if version.tmod 2 = 1 then 1 else 2

/-- The conversion of the 64-bit `metadata->version` to the C `int`
parameter of `indexOf` at its call sites: out-of-range values wrap modulo
2^32 into the two's-complement range (the implementation-defined conversion
as performed by gcc/clang on all platforms this code targets). -/
def cIntOfU64 (v : Nat) : Int :=
  if v % 4294967296 < 2147483648 then (v % 4294967296 : Nat)
  else (v % 4294967296 : Nat) - 4294967296

/-- `filenameOf`: `sprintf(filename, "metadata%d", n)`. -/
def filenameOf (n : Nat) : String :=
  "metadata" ++ toString n

/-- The data directory, modelled from the spec's filesystem collaborator:
a mapping from file names to full byte contents, as an association list. -/
abbrev Dir := List (String × List Nat)

/-- Modelled from the spec: `exists(dir, name) -> bool` (UvFsFileExists in
the deterministic, error-free instantiation of the collaborator). -/
def fsFileExists (dir : Dir) (name : String) : Bool :=
  (dir.lookup name).isSome

/-- Modelled from the spec: `readFull(dir, name, exactSize)`
(UvFsReadFileInto): reads the first `len` bytes, reporting the
distinguished short-read result `UV__NODATA` when the file holds fewer
bytes than requested. -/
def fsReadFileInto (dir : Dir) (name : String) (len : Nat) : Int × List Nat :=
  match dir.lookup name with
  | none => (UV__NODATA, [])
  | some content =>
      if content.length < len then (UV__NODATA, []) else (0, content.take len)

/-- Modelled from the spec: `createOrReplace(dir, name, bytes)`
(UvFsMakeOrReplaceFile): atomically installs `content` as the sole content
of `name`, replacing the entry in place or creating it. -/
def fsMakeOrReplaceFile (dir : Dir) (name : String) (content : List Nat) : Dir :=
  match dir with
  | [] => [(name, content)]
  | (n, c) :: rest =>
      if n = name then (name, content) :: rest
      else (n, c) :: fsMakeOrReplaceFile rest name content

/-- The body of `loadFile` after its filesystem calls, with the
collaborators' responses passed explicitly: `existsRv` is the result code of
`UvFsFileExists`, `ex` its boolean answer, `readRv` the result code of
`UvFsReadFileInto` and `content` the bytes it produced.  The first argument
is the caller's (uninitialized) struct, returned untouched on the paths
where the C code returns before the `memset`.  The third component of the
result records whether the non-fatal `uvWarnf` warning was emitted.
The `assert(rv == RAFT_MALFORMED)` after `decode` cannot fire (decode
returns only `0` or `RAFT_MALFORMED`) and is not modelled. -/
def loadFileWith (m₀ : uvMetadata) (existsRv : Int) (ex : Bool)
    (readRv : Int) (content : List Nat) : Int × uvMetadata × Bool :=
  if existsRv ≠ 0 then (RAFT_IOERR, m₀, false)
  else if !ex then (0, zeroRecord, false)
  else if readRv ≠ 0 then
    if readRv ≠ UV__NODATA then (RAFT_IOERR, zeroRecord, false)
    else (0, zeroRecord, true)
  else
    if (decode content zeroRecord).1 ≠ 0 then
      ((decode content zeroRecord).1, (decode content zeroRecord).2, false)
    else if (decode content zeroRecord).2.version = 0 then
      (RAFT_CORRUPT, (decode content zeroRecord).2, false)
    else (0, (decode content zeroRecord).2, false)

/-- `loadFile`: read the n'th metadata file of the directory (n is 1 or 2)
through the deterministic filesystem collaborator. -/
def loadFile (dir : Dir) (n : Nat) : Int × uvMetadata × Bool :=
  let filename := filenameOf n
  let ex := fsFileExists dir filename
  let r := fsReadFileInto dir filename 32
  loadFileWith zeroRecord 0 ex r.1 r.2

/-- `uvMetadataStore` with the result code of `UvFsMakeOrReplaceFile`
passed explicitly (`writeRv`); the write itself is performed on the
deterministic directory only when it reports success.  The result carries
the caller-visible record (the C function takes it as `const` and never
writes through the pointer).  `assert(metadata->version > 0)` aborting the
process is modelled by `none`. -/
def uvMetadataStoreWith (metadata : uvMetadata) (dir : Dir) (writeRv : Int) :
    Option (Int × uvMetadata × Dir) :=
  if metadata.version = 0 then none
  else
    let content := encode metadata
    let n := (indexOf (cIntOfU64 metadata.version)).toNat
    let filename := filenameOf n
    if writeRv ≠ 0 then some (RAFT_IOERR, metadata, dir)
    else some (0, metadata, fsMakeOrReplaceFile dir filename content)

/-- `uvMetadataStore` on the deterministic (error-free) filesystem. -/
def uvMetadataStore (metadata : uvMetadata) (dir : Dir) :
    Option (Int × uvMetadata × Dir) :=
  uvMetadataStoreWith metadata dir 0

/-- `ensure`: update both metadata files using the given one as seed.  The
two-iteration `for` loop is unrolled; `metadata->version++` is a C
`unsigned long long` increment, hence the explicit 2^64 mask.  `UvFsSyncDir`
succeeds on the deterministic filesystem. -/
def ensure (metadata : uvMetadata) (dir : Dir) :
    Option (Int × uvMetadata × Dir) :=
  let m1 := { metadata with
              version := (metadata.version + 1) % 18446744073709551616 }
  match uvMetadataStore m1 dir with
  | none => none
  | some (rv1, m1w, dir1) =>
    if rv1 ≠ 0 then some (rv1, m1w, dir1)
    else
      let m2 := { m1w with
                  version := (m1w.version + 1) % 18446744073709551616 }
      match uvMetadataStore m2 dir1 with
      | none => none
      | some (rv2, m2w, dir2) =>
        if rv2 ≠ 0 then some (rv2, m2w, dir2)
        else some (0, m2w, dir2)

/-- `uvMetadataLoad`: read both metadata files, reconcile them, and
normalize the on-disk state through `ensure`.  `ensure` receives the same
out-parameter the caller sees, so the record handed back carries the
increments performed by the normalization writes.  The first argument is
the caller's (uninitialized) struct, returned untouched on the paths where
the C code returns before writing `*metadata`. -/
def uvMetadataLoad (m₀ : uvMetadata) (dir : Dir) :
    Option (Int × uvMetadata × Dir) :=
  let r1 := loadFile dir 1
  if r1.1 ≠ 0 then some (r1.1, m₀, dir)
  else
    let r2 := loadFile dir 2
    if r2.1 ≠ 0 then some (r2.1, m₀, dir)
    else if r1.2.1.version = 0 ∧ r2.2.1.version = 0 then
      ensure zeroRecord dir
    else if r1.2.1.version = r2.2.1.version then
      some (RAFT_CORRUPT, m₀, dir)
    else
      ensure (if r1.2.1.version > r2.2.1.version then r1.2.1 else r2.2.1) dir

/-! ### Codec lemmas -/

lemma byteGet64_bytePut64_append (v : Nat) (rest : List Nat) :
    byteGet64 (bytePut64 v ++ rest) = v % 18446744073709551616 := by
  simp [bytePut64, byteGet64]
  omega

lemma bytePut64_append_drop (v : Nat) (l : List Nat) :
    (bytePut64 v ++ l).drop 8 = l := rfl

lemma byteGet64_lt (l : List Nat) : byteGet64 l < 18446744073709551616 := by
  simp only [byteGet64]
  omega

lemma encode_length (m : uvMetadata) : (encode m).length = 32 := by
  simp [encode, bytePut64]

lemma byteGet64_bytePut64 (v : Nat) :
    byteGet64 (bytePut64 v) = v % 18446744073709551616 := by
  simpa using byteGet64_bytePut64_append v []

lemma encode_drop8 (m : uvMetadata) :
    (encode m).drop 8 =
      bytePut64 m.version ++ (bytePut64 m.term ++ bytePut64 m.voted_for) := rfl

lemma encode_drop16 (m : uvMetadata) :
    (encode m).drop 16 = bytePut64 m.term ++ bytePut64 m.voted_for := rfl

lemma encode_drop24 (m : uvMetadata) :
    (encode m).drop 24 = bytePut64 m.voted_for := rfl

lemma decode_encode (m : uvMetadata) (m₀ : uvMetadata)
    (hv : m.version < 18446744073709551616)
    (ht : m.term < 18446744073709551616)
    (hf : m.voted_for < 18446744073709551616) :
    decode (encode m) m₀ = (0, m) := by
  have h1 : byteGet64 (encode m) = 1 := by
    simpa [UV__DISK_FORMAT] using
      byteGet64_bytePut64_append UV__DISK_FORMAT
        (bytePut64 m.version ++ (bytePut64 m.term ++ bytePut64 m.voted_for))
  simp only [decode, h1, encode_drop8, encode_drop16, encode_drop24,
    byteGet64_bytePut64_append, byteGet64_bytePut64, UV__DISK_FORMAT]
  norm_num [Nat.mod_eq_of_lt hv, Nat.mod_eq_of_lt ht, Nat.mod_eq_of_lt hf]

/-- Fields produced by a successful `decode` fit in 64 bits. -/
lemma decode_fields_lt (buf : List Nat) (m₀ m : uvMetadata)
    (h : decode buf m₀ = (0, m)) :
    m.version < 18446744073709551616 ∧ m.term < 18446744073709551616 ∧
      m.voted_for < 18446744073709551616 := by
  unfold decode at h
  split at h
  · simp [RAFT_MALFORMED] at h
  · simp only [Prod.mk.injEq] at h
    exact h.2 ▸ ⟨byteGet64_lt _, byteGet64_lt _, byteGet64_lt _⟩

/-- A successful `loadFile` hands back a record whose fields fit in 64
bits (either the zero record or a decoded one). -/
lemma loadFile_fields_lt (dir : Dir) (n : Nat) (m : uvMetadata) (w : Bool)
    (h : loadFile dir n = (0, m, w)) :
    m.version < 18446744073709551616 ∧ m.term < 18446744073709551616 ∧
      m.voted_for < 18446744073709551616 := by
  have hz : zeroRecord.version < 18446744073709551616 ∧
      zeroRecord.term < 18446744073709551616 ∧
      zeroRecord.voted_for < 18446744073709551616 := by norm_num [zeroRecord]
  rcases hd : decode (fsReadFileInto dir (filenameOf n) 32).2 zeroRecord
    with ⟨rv, md⟩
  simp only [loadFile, loadFileWith] at h
  rw [hd] at h
  split_ifs at h with hc1 hc2 hc3 hc4 hc5 hc6 <;>
    simp only [Prod.mk.injEq] at h
  · exact absurd rfl hc1
  · exact h.2.1 ▸ hz
  · exact absurd h.1 (by norm_num [RAFT_IOERR])
  · exact h.2.1 ▸ hz
  · exact absurd h.1 (by simpa using hc5)
  · exact absurd h.1 (by norm_num [RAFT_CORRUPT])
  · have hrv : rv = 0 := by simpa using hc5
    exact h.2.1 ▸ decode_fields_lt _ _ _ (by rw [hd, hrv])

/-! ### Characterization of `ensure` -/

/-- When the two version increments stay below 2^64, `ensure` performs the
two alternating writes and hands back the seed with its version advanced
by exactly 2. -/
lemma ensure_eq (m : uvMetadata) (dir : Dir)
    (h : m.version + 2 < 18446744073709551616) :
    ensure m dir = some (0, { m with version := m.version + 2 },
      fsMakeOrReplaceFile
        (fsMakeOrReplaceFile dir
          (filenameOf (indexOf (cIntOfU64 (m.version + 1))).toNat)
          (encode { m with version := m.version + 1 }))
        (filenameOf (indexOf (cIntOfU64 (m.version + 2))).toNat)
        (encode { m with version := m.version + 2 })) := by
  have h1 : (m.version + 1) % 18446744073709551616 = m.version + 1 :=
    Nat.mod_eq_of_lt (by omega)
  have h2 : (m.version + 1 + 1) % 18446744073709551616 = m.version + 2 := by
    rw [Nat.mod_eq_of_lt (by omega)]
  have hne1 : m.version + 1 ≠ 0 := by omega
  have hne2 : m.version + 2 ≠ 0 := by omega
  simp [ensure, uvMetadataStore, uvMetadataStoreWith, h1, h2, hne1, hne2]

/-- If the first version increment wraps to zero, the first store hits
`assert(metadata->version > 0)` and the process aborts. -/
lemma ensure_first_abort (m : uvMetadata) (dir : Dir)
    (h0 : (m.version + 1) % 18446744073709551616 = 0) :
    ensure m dir = none := by
  simp [ensure, uvMetadataStore, uvMetadataStoreWith, h0]

/-- If the second version increment wraps to zero, the second store hits
`assert(metadata->version > 0)` and the process aborts. -/
lemma ensure_second_abort (m : uvMetadata) (dir : Dir)
    (h1 : (m.version + 1) % 18446744073709551616 ≠ 0)
    (h0 : ((m.version + 1) % 18446744073709551616 + 1) %
        18446744073709551616 = 0) :
    ensure m dir = none := by
  simp [ensure, uvMetadataStore, uvMetadataStoreWith, h1, h0]

/-- Inversion: a successful `ensure` always advanced the seed's version by
exactly 2 (keeping term and vote), because the cases in which an increment
wraps to zero hit the `assert(metadata->version > 0)` in the store and
abort instead of returning. -/
lemma ensure_some_inv (m : uvMetadata) (dir : Dir) (m' : uvMetadata)
    (dir' : Dir) (hv : m.version < 18446744073709551616)
    (h : ensure m dir = some (0, m', dir')) :
    m' = { m with version := m.version + 2 } := by
  rcases Nat.lt_or_ge (m.version + 2) 18446744073709551616 with hlt | hge
  · rw [ensure_eq m dir hlt] at h
    simp only [Option.some.injEq, Prod.mk.injEq] at h
    exact h.2.1.symm
  · exfalso
    rcases (by omega : m.version = 18446744073709551615 ∨
        m.version = 18446744073709551614) with h1 | h1
    · rw [ensure_first_abort m dir (by omega)] at h
      exact Option.noConfusion h
    · rw [ensure_second_abort m dir (by omega) (by omega)] at h
      exact Option.noConfusion h

/-! ### Claim theorems -/

/-- Claim C1 (failing evaluation): slot selection is NOT determined by
version parity for every positive version.  The version is narrowed
through the C `int` parameter of `indexOf`, so the odd version
2147483649 (2^31 + 1) wraps to the negative value -2147483647, whose C
remainder by 2 is -1, and the computed slot is 2, not 1; the even
successor 2147483650 also maps to slot 2, so two consecutive store calls
target the same slot: storing a record at version 2147483649 writes the
file metadata2. -/
theorem claim1_indexOf_parity_break :
    cIntOfU64 2147483649 = -2147483647 ∧
    indexOf (cIntOfU64 2147483649) = 2 ∧
    indexOf (cIntOfU64 2147483650) = 2 ∧
    uvMetadataStore ⟨2147483649, 0, 0⟩ [] =
      some (0, ⟨2147483649, 0, 0⟩,
        [("metadata2", encode ⟨2147483649, 0, 0⟩)]) :=
  ⟨by decide, by decide, by decide, by rfl⟩

/-- Claim C4: for every 64-bit record with positive version, `encode`
produces a 32-byte buffer and `decode` of that buffer succeeds, returning
a record equal to the original. -/
theorem claim4_decode_encode_roundtrip (m : uvMetadata)
    (hpos : 0 < m.version)
    (hv : m.version < 18446744073709551616)
    (ht : m.term < 18446744073709551616)
    (hf : m.voted_for < 18446744073709551616) :
    (encode m).length = 32 ∧ decode (encode m) zeroRecord = (0, m) :=
  ⟨encode_length m, decode_encode m zeroRecord hv ht hf⟩

/-- Witness for C4 at the concrete record (version 3, term 2, vote 5). -/
theorem claim4_witness :
    0 < 3 ∧ ((encode ⟨3, 2, 5⟩).length = 32 ∧
      decode (encode ⟨3, 2, 5⟩) zeroRecord = (0, ⟨3, 2, 5⟩)) :=
  ⟨by norm_num,
   claim4_decode_encode_roundtrip ⟨3, 2, 5⟩ (by norm_num) (by norm_num)
     (by norm_num) (by norm_num)⟩

/-- Claim C5 (failing evaluation): `decode` does NOT reject every buffer
whose first 8-byte field differs from the expected tag.  The C code reads
the 64-bit tag into a 32-bit `unsigned`, so the first field 4294967297
(2^32 + 1), which differs from the expected tag, truncates to 1 and is
accepted: decode succeeds and returns the record (9, 7, 5). -/
theorem claim5_decode_accepts_wrong_tag :
    byteGet64 (bytePut64 4294967297 ++
        (bytePut64 9 ++ (bytePut64 7 ++ bytePut64 5))) = 4294967297 ∧
    (4294967297 : Nat) ≠ UV__DISK_FORMAT ∧
    decode (bytePut64 4294967297 ++
        (bytePut64 9 ++ (bytePut64 7 ++ bytePut64 5))) zeroRecord =
      (0, ⟨9, 7, 5⟩) :=
  ⟨by rfl, by norm_num [UV__DISK_FORMAT], by rfl⟩

/-- Claim C6: during the per-slot read, a short read (the filesystem
reports fewer bytes than the 32-byte record size, result `UV__NODATA`) is
downgraded: the slot record is the zero record, the non-fatal warning is
emitted and no error is returned; any other nonzero read result makes
`loadFile` return the fatal `RAFT_IOERR`. -/
theorem claim6_short_read_downgrade (m₀ : uvMetadata) (readRv : Int)
    (content : List Nat) (h : readRv ≠ 0) :
    loadFileWith m₀ 0 true readRv content =
      if readRv = UV__NODATA then (0, zeroRecord, true)
      else (RAFT_IOERR, zeroRecord, false) := by
  by_cases hn : readRv = UV__NODATA <;>
    simp [loadFileWith, h, hn, UV__NODATA]

/-- Witness for C6: a short read (result `UV__NODATA`) yields success with
the zero record and the warning; a generic failing read result (7) yields
`RAFT_IOERR`. -/
theorem claim6_witness :
    loadFileWith zeroRecord 0 true UV__NODATA [] = (0, zeroRecord, true) ∧
    loadFileWith zeroRecord 0 true 7 [] = (RAFT_IOERR, zeroRecord, false) := by
  have h1 := claim6_short_read_downgrade zeroRecord UV__NODATA []
    (by norm_num [UV__NODATA])
  have h2 := claim6_short_read_downgrade zeroRecord 7 [] (by norm_num)
  rw [h1, h2]
  norm_num [UV__NODATA]

/-- Claim C7: whenever the two per-slot records read at recovery have
equal non-zero versions, `uvMetadataLoad` returns the `RAFT_CORRUPT` error
with the directory unchanged (no normalization write touches either slot
file) and the caller's record untouched. -/
theorem claim7_equal_versions_corrupt_no_write (dir : Dir)
    (m₀ m1 m2 : uvMetadata) (w1 w2 : Bool)
    (h1 : loadFile dir 1 = (0, m1, w1)) (h2 : loadFile dir 2 = (0, m2, w2))
    (heq : m1.version = m2.version) (hne : m1.version ≠ 0) :
    uvMetadataLoad m₀ dir = some (RAFT_CORRUPT, m₀, dir) := by
  have hne2 : m2.version ≠ 0 := heq ▸ hne
  simp [uvMetadataLoad, h1, h2, heq, hne2]

/-- Witness for C7: both slots hold correctly-tagged records at the same
nonzero version 5; load returns Corrupt and writes nothing. -/
theorem claim7_witness :
    loadFile [("metadata1", encode ⟨5, 1, 2⟩), ("metadata2", encode ⟨5, 3, 4⟩)]
        1 = (0, ⟨5, 1, 2⟩, false) ∧
    loadFile [("metadata1", encode ⟨5, 1, 2⟩), ("metadata2", encode ⟨5, 3, 4⟩)]
        2 = (0, ⟨5, 3, 4⟩, false) ∧
    uvMetadataLoad zeroRecord
        [("metadata1", encode ⟨5, 1, 2⟩), ("metadata2", encode ⟨5, 3, 4⟩)] =
      some (RAFT_CORRUPT, zeroRecord,
        [("metadata1", encode ⟨5, 1, 2⟩), ("metadata2", encode ⟨5, 3, 4⟩)]) :=
  ⟨by rfl, by rfl,
   claim7_equal_versions_corrupt_no_write _ zeroRecord ⟨5, 1, 2⟩ ⟨5, 3, 4⟩
     false false (by rfl) (by rfl) (by norm_num) (by norm_num)⟩

/-- Claim C8: for every slot content that decodes successfully but whose
decoded version is 0, the per-slot read returns the `RAFT_CORRUPT` error
even though the structural decode succeeded. -/
theorem claim8_zero_version_corrupt (m₀ : uvMetadata) (content : List Nat)
    (m : uvMetadata) (hd : decode content zeroRecord = (0, m))
    (hv : m.version = 0) :
    loadFileWith m₀ 0 true 0 content = (RAFT_CORRUPT, m, false) := by
  simp [loadFileWith, hd, hv]

/-- Witness for C8: the encoding of a version-0 record decodes
structurally but the per-slot read reports Corrupt. -/
theorem claim8_witness :
    decode (encode ⟨0, 3, 7⟩) zeroRecord = (0, ⟨0, 3, 7⟩) ∧
    loadFileWith zeroRecord 0 true 0 (encode ⟨0, 3, 7⟩) =
      (RAFT_CORRUPT, ⟨0, 3, 7⟩, false) :=
  ⟨by rfl,
   claim8_zero_version_corrupt zeroRecord (encode ⟨0, 3, 7⟩) ⟨0, 3, 7⟩
     (by rfl) (by rfl)⟩

/-- Claim C9: the write path never mutates the caller's in-memory record:
for every record with positive version, whatever the result code of the
underlying write, `uvMetadataStore` hands the record back bit-for-bit
unchanged. -/
theorem claim9_store_preserves_record (m : uvMetadata) (dir : Dir)
    (writeRv : Int) (h : 0 < m.version) :
    ∃ rv dir', uvMetadataStoreWith m dir writeRv = some (rv, m, dir') := by
  have hne : ¬m.version = 0 := by omega
  by_cases hw : writeRv = 0
  · exact ⟨0, fsMakeOrReplaceFile dir
      (filenameOf (indexOf (cIntOfU64 m.version)).toNat) (encode m),
      by simp [uvMetadataStoreWith, hne, hw]⟩
  · exact ⟨RAFT_IOERR, dir, by simp [uvMetadataStoreWith, hne, hw]⟩

/-- Witness for C9 at the concrete record (1, 0, 0) with a succeeding
write. -/
theorem claim9_witness :
    0 < 1 ∧ ∃ rv dir',
      uvMetadataStoreWith ⟨1, 0, 0⟩ [] 0 = some (rv, ⟨1, 0, 0⟩, dir') :=
  ⟨Nat.one_pos, claim9_store_preserves_record ⟨1, 0, 0⟩ [] 0 Nat.one_pos⟩

/-- Claim C2 (amended): when the two per-slot records are not both zero
and have unequal versions, the authoritative record is whichever has the
strictly greater version; on a successful load the caller receives that
record with term and votedFor unchanged and version advanced by exactly 2
by the two normalization writes.  In particular, for slot 1 = (3, 2, 5)
and slot 2 = (4, 2, 5), load selects the slot-2 record and returns
(6, 2, 5) after normalizing by writing versions 5 and 6. -/
theorem claim2_authoritative_greater :
    (∀ (dir : Dir) (m₀ m1 m2 : uvMetadata) (w1 w2 : Bool)
        (m' : uvMetadata) (dir' : Dir),
      loadFile dir 1 = (0, m1, w1) → loadFile dir 2 = (0, m2, w2) →
      ¬(m1.version = 0 ∧ m2.version = 0) → m1.version ≠ m2.version →
      uvMetadataLoad m₀ dir = some (0, m', dir') →
      m'.term = (if m1.version > m2.version then m1 else m2).term ∧
      m'.voted_for = (if m1.version > m2.version then m1 else m2).voted_for ∧
      m'.version =
        (if m1.version > m2.version then m1 else m2).version + 2) ∧
    uvMetadataLoad zeroRecord
        [("metadata1", encode ⟨3, 2, 5⟩), ("metadata2", encode ⟨4, 2, 5⟩)] =
      some (0, ⟨6, 2, 5⟩,
        [("metadata1", encode ⟨5, 2, 5⟩), ("metadata2", encode ⟨6, 2, 5⟩)]) := by
  constructor
  · intro dir m₀ m1 m2 w1 w2 m' dir' h1 h2 hnz hne hload
    have hload' : ensure (if m1.version > m2.version then m1 else m2) dir =
        some (0, m', dir') := by
      simpa [uvMetadataLoad, h1, h2, hnz, hne] using hload
    have hv : (if m1.version > m2.version then m1 else m2).version <
        18446744073709551616 := by
      rcases loadFile_fields_lt dir 1 m1 w1 h1 with ⟨hv1, _, _⟩
      rcases loadFile_fields_lt dir 2 m2 w2 h2 with ⟨hv2, _, _⟩
      by_cases hgt : m1.version > m2.version <;> simp [hgt, hv1, hv2]
    have hm' := ensure_some_inv _ dir m' dir' hv hload'
    rw [hm']
    exact ⟨rfl, rfl, rfl⟩
  · rfl

/-- Counterexample to claim C2 as stated: on the resume scenario the
record load hands back to the caller carries version 6, not 4 (the two
normalization writes advance the out-parameter before load returns). -/
theorem claim2_counterexample :
    (uvMetadataLoad zeroRecord
        [("metadata1", encode ⟨3, 2, 5⟩), ("metadata2", encode ⟨4, 2, 5⟩)]).map
      (fun r => r.2.1.version) = some 6 ∧ (6 : Nat) ≠ 4 :=
  ⟨by rfl, by norm_num⟩

/-- Witness for C2 at the resume scenario: the universal reconciliation
statement instantiated at slot 1 = (3, 2, 5), slot 2 = (4, 2, 5). -/
theorem claim2_witness :
    (⟨6, 2, 5⟩ : uvMetadata).term =
      (if (⟨3, 2, 5⟩ : uvMetadata).version > (⟨4, 2, 5⟩ : uvMetadata).version
       then (⟨3, 2, 5⟩ : uvMetadata) else ⟨4, 2, 5⟩).term ∧
    (⟨6, 2, 5⟩ : uvMetadata).voted_for =
      (if (⟨3, 2, 5⟩ : uvMetadata).version > (⟨4, 2, 5⟩ : uvMetadata).version
       then (⟨3, 2, 5⟩ : uvMetadata) else ⟨4, 2, 5⟩).voted_for ∧
    (⟨6, 2, 5⟩ : uvMetadata).version =
      (if (⟨3, 2, 5⟩ : uvMetadata).version > (⟨4, 2, 5⟩ : uvMetadata).version
       then (⟨3, 2, 5⟩ : uvMetadata) else ⟨4, 2, 5⟩).version + 2 :=
  claim2_authoritative_greater.1
    [("metadata1", encode ⟨3, 2, 5⟩), ("metadata2", encode ⟨4, 2, 5⟩)]
    zeroRecord ⟨3, 2, 5⟩ ⟨4, 2, 5⟩ false false ⟨6, 2, 5⟩
    [("metadata1", encode ⟨5, 2, 5⟩), ("metadata2", encode ⟨6, 2, 5⟩)]
    (by rfl) (by rfl) (by norm_num) (by norm_num)
    claim2_authoritative_greater.2

/-- Claim C3 (amended): for a directory with no slot files, load succeeds
handing back the record (2, 0, 0) — the zero record advanced by the two
normalization writes — and afterwards exactly the two slot files exist,
holding correctly-decoding records with versions 1 and 2 respectively. -/
theorem claim3_fresh_start_normalized :
    uvMetadataLoad zeroRecord [] =
      some (0, ⟨2, 0, 0⟩,
        [("metadata1", encode ⟨1, 0, 0⟩), ("metadata2", encode ⟨2, 0, 0⟩)]) ∧
    decode (encode ⟨1, 0, 0⟩) zeroRecord = (0, ⟨1, 0, 0⟩) ∧
    decode (encode ⟨2, 0, 0⟩) zeroRecord = (0, ⟨2, 0, 0⟩) :=
  ⟨by rfl, by rfl, by rfl⟩

/-- Counterexample to claim C3 as stated: on the fresh-start scenario the
record load hands back carries version 2, not 0 (the normalization writes
advance the out-parameter before load returns). -/
theorem claim3_counterexample :
    (uvMetadataLoad zeroRecord []).map (fun r => r.2.1.version) = some 2 ∧
    (2 : Nat) ≠ 0 :=
  ⟨by rfl, by norm_num⟩

/-- Claim C10 (failing evaluation): the normalization writes do NOT always
leave the two slot files at versions authoritative+1 and authoritative+2.
With slot 1 holding version 2147483648 (2^31) and slot 2 absent, load
succeeds returning version 2147483650, but both normalization writes land
in metadata2 (the version is narrowed through the C `int` inside
`indexOf`), so metadata1 still holds version 2147483648 — not
authoritative+1 = 2147483649. -/
theorem claim10_normalization_misses_slot1 :
    uvMetadataLoad zeroRecord [("metadata1", encode ⟨2147483648, 1, 1⟩)] =
      some (0, ⟨2147483650, 1, 1⟩,
        [("metadata1", encode ⟨2147483648, 1, 1⟩),
         ("metadata2", encode ⟨2147483650, 1, 1⟩)]) ∧
    (decode (encode ⟨2147483648, 1, 1⟩) zeroRecord).2.version ≠
      2147483648 + 1 :=
  ⟨by rfl, by decide⟩

end UvMeta
